import Mathlib

/-!
Verification of the bwe-test mininet run controller
(src/mininet/testcases.py and src/mininet/main.py).

The Python source is shallowly embedded as follows.

* Pure value computations (command lists, log lines, the config dictionary)
  become Lean functions on `String`, `Nat` and `ℚ`.  Python floats that the
  program manipulates are exact decimal values (1.0, 2.5, 0.6 and their
  products with 10^6), so they are modelled as rationals; the observable
  decimal rendering of such a float (CPython shortest round-trip repr,
  which prints integral floats with a trailing ".0") is `pyFloatRepr`.
* The control flow of `VariableAvailableCapacitySingleFlow.run`
  (testcases.py lines 143-201), with its try/except/finally structure, is
  embedded as a function from an environment `Env` - which records which
  external calls raise and how the child processes behave - to the
  `Outcome` of the call (return value or propagated exception) together
  with the trace of side-effecting steps (`Action`) that were attempted,
  in order.
* The `pmonitor` polling loop (lines 171-177) is abstracted over the
  sequence of wall-clock times at which the loop body observes a yield;
  `monitorExitTime` is the exit condition of the loop body.
* `threading.Timer` firing/cancellation is modelled over the action trace:
  an armed timer can still fire while the `cancelTimers` step has not yet
  executed, and never afterwards.
-/

namespace Bwe

/-! ## Python value helpers -/

/-- Fractional decimal digits of a rational in `[0, 1)`, with fuel
(17 digits suffice for every float the program prints). -/
def fracDigitsAux : Nat → ℚ → String
  | 0, _ => ""
  | fuel+1, q =>
    if q.num = 0 then "" else
      let q10 := q * 10
      let d := q10.num.natAbs / q10.den
      toString d ++ fracDigitsAux fuel (q10 - (d : ℚ))

/-- Decimal rendering of a Python float whose exact value is the given
rational, as produced by CPython `str`/`repr` (shortest round-trip form,
finite decimal case).  An integral float prints with a trailing ".0",
e.g. `str(2500000.0) = "2500000.0"`; this is what
the format call in `update_link` (line 79) interpolates. -/
def pyFloatRepr (q : ℚ) : String :=
  let sign := if q.num < 0 then "-" else ""
  let n := q.num.natAbs
  let d := q.den
  let ip := n / d
  let fr : ℚ := ((n % d : ℕ) : ℚ) / (d : ℚ)
  let s := fracDigitsAux 17 fr
  sign ++ toString ip ++ "." ++ (if s = "" then "0" else s)

/-- Python `int()` applied to a real value: truncation toward zero. -/
def pyTrunc (q : ℚ) : ℤ :=
  if q.num < 0 then -(Int.floor (-q)) else Int.floor q

/-! ## Implementation (testcases.py lines 17-54) -/

/-- The `Implementation` class: one test implementation descriptor.
Field order matches the assignment order in `__init__` (lines 31-35),
which is also the key order of `self.__dict__`. -/
structure Implementation where
  name : String
  description : String
  sender_binary : String
  receiver_binary : String
  out_dir : String
deriving DecidableEq, Repr

/-- `Implementation.send_cmd` (lines 37-45): the sender command line.
The `addr` and `port` parameters are accepted and ignored, as in the
source (the dump flags are commented out there). -/
def Implementation.send_cmd (impl : Implementation) (addr port : String) :
    List String :=
  [impl.sender_binary, "-mode", "sender"]

/-- `Implementation.receive_cmd` (lines 47-54): the receiver command line. -/
def Implementation.receive_cmd (impl : Implementation) (addr port : String) :
    List String :=
  [impl.receiver_binary, "-mode", "receiver"]

/-- A JSON-serialisable value, as far as `dump_config` needs. -/
inductive JVal where
  | str (s : String)
  | int (n : ℤ)
deriving DecidableEq, Repr

/-- `self.implementation.__dict__`: insertion-ordered key/value pairs, in
the order the attributes are assigned in `__init__`. -/
def Implementation.dict (impl : Implementation) : List (String × JVal) :=
  [("name", JVal.str impl.name),
   ("description", JVal.str impl.description),
   ("sender_binary", JVal.str impl.sender_binary),
   ("receiver_binary", JVal.str impl.receiver_binary),
   ("out_dir", JVal.str impl.out_dir)]

/-- The dictionary serialised by `dump_config` (lines 135-141):
a basetime entry of `int(start * 1000)` merged before the keys of
`self.implementation.__dict__`.
The merge keeps `basetime` first and then the `__dict__` keys in order
(no key collisions occur). -/
def dump_config_json (impl : Implementation) (start : ℚ) :
    List (String × JVal) :=
  ("basetime", JVal.int (pyTrunc (start * 1000))) :: impl.dict

/-- The key list of the persisted `config.json` object. -/
def config_keys (impl : Implementation) (start : ℚ) : List String :=
  (dump_config_json impl start).map Prod.fst

/-! ## Traffic control (testcases.py lines 57-81 and 105-133) -/

/-- The first positional argument of the two `tc qdisc` commands:
add when `is_first` holds, change otherwise (lines 63 and 69). -/
inductive TcMode where
  | add
  | change
deriving DecidableEq, Repr

def TcMode.str : TcMode → String
  | .add => "add"
  | .change => "change"

/-- Which of the two queueing disciplines a shaping command targets. -/
inductive QdiscKind where
  | tbf
  | netem
deriving DecidableEq, Repr

/-- One `tc qdisc` invocation issued by the `update` closure. -/
structure ShapeCall where
  mode : TcMode
  dev : String
  kind : QdiscKind
deriving DecidableEq, Repr

/-- The rate-shaping command string (lines 62-67). -/
def qdisc_cmd_str (m : TcMode) (dev : String) (bw : ℚ) : String :=
  "tc qdisc " ++ m.str ++ " dev " ++ dev ++ " root handle 1: tbf rate " ++
    pyFloatRepr bw ++ "Mbit burst 15000 latency 300ms"

/-- The delay/loss command string (lines 68-73). -/
def netem_cmd_str (m : TcMode) (dev : String) : String :=
  "tc qdisc " ++ m.str ++ " dev " ++ dev ++
    " parent 1: handle 2: netem delay 50ms loss 0"

/-- The shaping calls one firing of the `update` closure issues, in order:
for each interface `i` in `[i1, i2]`, the tbf command then the netem
command (lines 61-77), all with the same add/change mode. -/
def update_link_calls (i1 i2 : String) (is_first : Bool) : List ShapeCall :=
  let m := if is_first then TcMode.add else TcMode.change
  [⟨m, i1, QdiscKind.tbf⟩, ⟨m, i1, QdiscKind.netem⟩,
   ⟨m, i2, QdiscKind.tbf⟩, ⟨m, i2, QdiscKind.netem⟩]

/-- The record `update` appends to the capacity log (lines 78-79):
the timestamp `t = int(time() * 1000)`, comma-space, then `bw * 1_000_000`,
newline-terminated; `t` is a nonnegative integer and `bw` a Python float. -/
def capacity_log_line (t : ℕ) (bw : ℚ) : String :=
  toString t ++ ", " ++ pyFloatRepr (bw * 1000000) ++ "\n"

/-- One entry of the hard-wired schedule (lines 107-113). -/
structure ScheduleEntry where
  start_time : ℕ
  ratio : ℚ
deriving DecidableEq

/-- `reference = 1.0` (line 106). -/
def reference : ℚ := 1

/-- `tc_config` (lines 107-113); the float ratios 1.0, 2.5, 0.6 are the
exact decimals they denote. -/
def tc_config : List ScheduleEntry :=
  [⟨0, 1⟩, ⟨40, 5/2⟩, ⟨60, 3/5⟩, ⟨80, 1⟩, ⟨100, 1⟩]

/-- One armed `threading.Timer` of `start_traffic_control`: delay,
captured bandwidth (the entry ratio times `reference`), and the captured value of
the `is_first` flag. -/
structure TimerSpec where
  delay : ℕ
  bw : ℚ
  is_first : Bool

/-- The arming loop of `start_traffic_control` (lines 115-129): `is_first`
starts true and is set to false after the first entry is armed, so only
the timer of the first schedule entry captures `is_first = True`. -/
def arm_timers : Bool → List ScheduleEntry → List TimerSpec
  | _, [] => []
  | isF, c :: rest => ⟨c.start_time, c.ratio * reference, isF⟩ :: arm_timers false rest

/-- `start_traffic_control` arms one timer per entry of `tc_config`. -/
def start_traffic_control : List TimerSpec :=
  arm_timers true tc_config

/-- The shaping calls of a whole schedule in firing order (the source
schedule is sorted by `start_time`, so list order is firing order). -/
def schedule_calls (i1 i2 : String) (cfg : List ScheduleEntry) : List ShapeCall :=
  (arm_timers true cfg).flatMap (fun ts => update_link_calls i1 i2 ts.is_first)

/-- Splits a character list at every occurrence of the two-character
separator comma-space; `acc` accumulates the current field reversed. -/
def split_fields : List Char → List Char → List (List Char)
  | acc, [] => [acc.reverse]
  | acc, ',' :: ' ' :: rest => acc.reverse :: split_fields [] rest
  | acc, c :: rest => split_fields (c :: acc) rest

/-- A nonempty all-digit character list: the textual form of a
nonnegative integer. -/
def int_numeral_chars (l : List Char) : Bool :=
  !l.isEmpty && l.all Char.isDigit

/-- The record format asserted by the specification: one newline-terminated
line of two comma-space-separated integer numerals. -/
def claimed_record_form (line : String) : Bool :=
  let l := line.data
  decide (l.getLast? = some '\n') &&
    match split_fields [] l.dropLast with
    | [a, b] => int_numeral_chars a && int_numeral_chars b
    | _ => false

/-! ## Process supervision loop (testcases.py lines 171-177) -/

/-- `pmonitor(popens, timeoutms=1000)`: the poll blocks at most 1000 ms
per iteration. -/
def poll_interval_ms : ℕ := 1000

/-- Exit behaviour of the monitoring loop, abstracted over the sequence of
wall-clock times (in ms) at which the loop body runs.  The generator being
exhausted (all processes exited and their streams drained) ends the list
and the loop falls through with `none`; otherwise the body breaks at the
first observation time reaching the deadline (line 175). -/
def monitorExitTime (endTime : ℕ) : List ℕ → Option ℕ
  | [] => none
  | t :: ts => if endTime ≤ t then some t else monitorExitTime endTime ts

/-- Consecutive observation times are at most `bound` ms apart: while some
child process is alive, `pmonitor` yields at least once per poll timeout. -/
def gaps_le (bound : ℕ) : List ℕ → Bool
  | a :: b :: rest => decide (b ≤ a + bound) && gaps_le bound (b :: rest)
  | _ => true

/-! ## The run controller (testcases.py lines 143-201) -/

/-- The exceptions the embedding distinguishes.  `pyError` stands for any
`Exception` raised by an external call; `keyboardInterrupt` for an
external interrupt; `unboundLocal` is the `UnboundLocalError` raised by
the `finally` block when it reads the local `popens` (line 189) after the
try block raised before `popens = {}` (line 167) was executed. -/
inductive Exn where
  | keyboardInterrupt
  | pyError
  | unboundLocal
deriving DecidableEq, Repr

/-- The observable side-effecting steps of one `run()` call, in program
order.  `launch cmd out err` is a `host.popen(cmd, stderr=PIPE,
stdout=PIPE)` call with the two booleans recording whether stdout/stderr
are captured; `waitGrace i s` is `p.wait(s)`. -/
inductive Action where
  | mkdirOut
  | dumpConfig
  | startTc
  | launch (cmd : List String) (stdoutPiped stderrPiped : Bool)
  | monitor
  | stopping
  | terminate (i : ℕ)
  | waitGrace (i : ℕ) (secs : ℕ)
  | kill (i : ℕ)
  | netStop
  | cancelTimers
  | cleanup
deriving DecidableEq, Repr

/-- How `run()` finishes: `return ok` (line 201) or a propagated
exception. -/
inductive Outcome where
  | returns (ok : Bool)
  | raises (e : Exn)
deriving DecidableEq, Repr

/-- The behaviour of the world during one `run()` call: which external
calls raise, what the monitoring loop does, and whether each child
process exits within the grace period of `p.wait(3)`.
`netCreateRaises` covers lines 144-148 (`self.net()`, `net.start()`,
`getNodeByName`, `dumpNodeConnections`), which execute before the `try`
block. -/
structure Env where
  netCreateRaises : Bool
  mkdirRaises : Bool
  dumpConfigRaises : Bool
  startTcRaises : Bool
  popen1Raises : Bool
  popen2Raises : Bool
  monitorExn : Option Exn
  proc1ExitsInGrace : Bool
  proc2ExitsInGrace : Bool
  netStopRaises : Bool
  cleanupRaises : Bool
deriving DecidableEq, Repr

/-- `p.wait(3)` in the teardown loop (line 193). -/
def grace_period : ℕ := 3

/-- The teardown loop over `popens.values()` (lines 189-197): each process
is sent `terminate`, then awaited for the grace period; only
`TimeoutExpired` is caught, escalating to `kill`.  `gs` lists, per
launched process, whether it exits within the grace period. -/
def termKillTrace : ℕ → List Bool → List Action
  | _, [] => []
  | i, g :: gs =>
      Action.terminate i :: Action.waitGrace i grace_period ::
        ((if g then [] else [Action.kill i]) ++ termKillTrace (i+1) gs)

/-- The `finally` block (lines 187-201).  If the try block raised before
`popens = {}` executed, reading `popens` raises `UnboundLocalError`,
which propagates (nothing catches it).  Otherwise: terminate/kill each
launched process, `net.stop()`, `stop_traffic_control()` (cancels the
timers; `Timer.cancel` itself never raises), `cleanup()`, `return ok`.
An exception raised by `net.stop()` or `cleanup()` propagates and the
following steps do not execute; the `return ok` at the end swallows no
exception because the except clause already caught everything the try
block could raise. -/
def finallyBlock (env : Env) (popensBound : Bool) (graceFlags : List Bool)
    (ok : Bool) : Outcome × List Action :=
  if popensBound then
    let pT := termKillTrace 0 graceFlags
    if env.netStopRaises then
      (Outcome.raises Exn.pyError, Action.stopping :: (pT ++ [Action.netStop]))
    else if env.cleanupRaises then
      (Outcome.raises Exn.pyError,
        Action.stopping ::
          (pT ++ [Action.netStop, Action.cancelTimers, Action.cleanup]))
    else
      (Outcome.returns ok,
        Action.stopping ::
          (pT ++ [Action.netStop, Action.cancelTimers, Action.cleanup]))
  else (Outcome.raises Exn.unboundLocal, [Action.stopping])

/-- Result of the try block (lines 150-179): whether it completed (so the
except clause did not set `ok = False`), whether the local `popens` was
bound, how many processes were launched, and the attempted steps. -/
structure TryResult where
  ok : Bool
  popensBound : Bool
  nProcs : ℕ
  trace : List Action

/-- The try block (lines 150-179) followed by the except clause
(lines 181-186), which catches both `KeyboardInterrupt` and `Exception` -
every exception the body can raise - and sets `ok = False`.  Note
lines 161-162: the local `send_cmd` is built by `receive_cmd` and vice
versa, so the first `popen` (on h1) runs the receiver command and the
second (on h2) runs the sender command.  `receive_cmd`/`send_cmd` ignore
their address/port arguments, so the value of `h1.IP()` is immaterial. -/
def tryBody (impl : Implementation) (env : Env) : TryResult :=
  let preLaunch := [Action.mkdirOut, Action.dumpConfig, Action.startTc]
  let send_cmd := impl.receive_cmd "10.0.0.1" "4242"
  let receive_cmd := impl.send_cmd "10.0.0.1" "4242"
  if env.mkdirRaises then ⟨false, false, 0, [Action.mkdirOut]⟩
  else if env.dumpConfigRaises then
    ⟨false, false, 0, [Action.mkdirOut, Action.dumpConfig]⟩
  else if env.startTcRaises then ⟨false, false, 0, preLaunch⟩
  else if env.popen1Raises then
    ⟨false, true, 0, preLaunch ++ [Action.launch send_cmd true true]⟩
  else if env.popen2Raises then
    ⟨false, true, 1,
      preLaunch ++ [Action.launch send_cmd true true,
                    Action.launch receive_cmd true true]⟩
  else
    ⟨env.monitorExn.isNone, true, 2,
      preLaunch ++ [Action.launch send_cmd true true,
                    Action.launch receive_cmd true true, Action.monitor]⟩

/-- `VariableAvailableCapacitySingleFlow.run` (lines 143-201).  Topology
provisioning (lines 144-148) executes before the `try`, so an exception
there propagates immediately with nothing else attempted. -/
def run (impl : Implementation) (env : Env) : Outcome × List Action :=
  if env.netCreateRaises then (Outcome.raises Exn.pyError, [])
  else
    let r := tryBody impl env
    let f := finallyBlock env r.popensBound
      (List.take r.nProcs [env.proc1ExitsInGrace, env.proc2ExitsInGrace]) r.ok
    (f.1, r.trace ++ f.2)

/-- Lines 144-148, 151, 158, 159 and the two popen calls succeed: the run
reaches the monitoring loop with both processes launched. -/
def launchOk (env : Env) : Prop :=
  env.netCreateRaises = false ∧ env.mkdirRaises = false ∧
    env.dumpConfigRaises = false ∧ env.startTcRaises = false ∧
    env.popen1Raises = false ∧ env.popen2Raises = false

instance (env : Env) : Decidable (launchOk env) := by
  unfold launchOk; infer_instance

def isLaunch : Action → Bool
  | .launch _ _ _ => true
  | _ => false

/-- Index of the first occurrence of an action in a trace (length of the
trace if absent). -/
def idxOf (a : Action) : List Action → ℕ
  | [] => 0
  | b :: l => if b = a then 0 else idxOf a l + 1

/-- Trace position at which teardown has begun: the position right after
the `stopping` step executed. -/
def stoppingIdx (tr : List Action) : ℕ := idxOf Action.stopping tr

/-- Trace position of the `stop_traffic_control()` step, which calls
`cancel()` on every armed timer. -/
def cancelIdx (tr : List Action) : ℕ := idxOf Action.cancelTimers tr

/-- Model of the `threading.Timer` firing/cancellation race over the run
trace.  A position `p` counts executed actions; an armed timer whose
interval elapses can still run its callback at any position up to and
including the one where `cancelTimers` is the next action, and a timer
whose callback has not started when `cancel()` executes never runs. -/
def timer_can_fire (tr : List Action) (p : ℕ) : Prop :=
  p ≤ cancelIdx tr

instance (tr : List Action) (p : ℕ) : Decidable (timer_can_fire tr p) := by
  unfold timer_can_fire; infer_instance

/-! ## File effects (testcases.py lines 78-79, 135-141, 150-159) -/

/-- Python open modes the program uses: mode w truncates, mode a appends. -/
inductive FMode where
  | write
  | append
deriving DecidableEq, Repr

/-- One file write performed by the run, as `open(path, mode)` followed by
writing `lines`. -/
structure FileOp where
  path : String
  mode : FMode
  lines : List String
deriving DecidableEq, Repr

/-- The file operations of one run: `dump_config` opens `config.json`
with truncating mode w (line 137; its serialised content is modelled by
`dump_config_json` and is irrelevant here), and each timer firing opens
`capacity.log` with append mode a (line 78) and appends one record.
`fired` lists, for each `update` call that ran, its timestamp and
captured bandwidth. -/
def run_file_ops (fired : List (ℕ × ℚ)) : List FileOp :=
  ⟨"config.json", FMode.write, []⟩ ::
    fired.map (fun p => ⟨"capacity.log", FMode.append, [capacity_log_line p.1 p.2]⟩)

/-- Effect of one file operation on a file system (contents as lines). -/
def applyOp (fs : String → List String) (op : FileOp) : String → List String :=
  fun p =>
    if p = op.path then
      match op.mode with
      | FMode.write => op.lines
      | FMode.append => fs p ++ op.lines
    else fs p

/-- The file system after all file operations of a run. -/
def run_fs (fired : List (ℕ × ℚ)) (fs0 : String → List String) :
    String → List String :=
  (run_file_ops fired).foldl applyOp fs0

/-! ## Concrete demonstration values -/

/-- A concrete implementation descriptor, as `main.py` builds one. -/
def implDemo : Implementation :=
  ⟨"0", "demo implementation", "./sender", "./receiver", "data/0"⟩

/-- Everything succeeds: no external call raises, the loop ends at the
deadline, both processes exit within the grace period. -/
def envOk : Env :=
  ⟨false, false, false, false, false, false, none, true, true, false, false⟩

/-- Topology provisioning (before the try block) raises. -/
def envProvFail : Env :=
  ⟨true, false, false, false, false, false, none, true, true, false, false⟩

/-- `net.stop()` raises during teardown; everything else succeeds. -/
def envStopFail : Env :=
  ⟨false, false, false, false, false, false, none, true, true, true, false⟩

/-- The monitoring loop is interrupted by a `KeyboardInterrupt` and the
first child process ignores the termination signal. -/
def envInterruptHang : Env :=
  ⟨false, false, false, false, false, false, some Exn.keyboardInterrupt,
    false, true, false, false⟩

/-! ## Helper lemmas -/

theorem fracDigitsAux_zero (fuel : ℕ) : fracDigitsAux fuel (0 : ℚ) = "" := by
  cases fuel with
  | zero => rfl
  | succ n => simp [fracDigitsAux]

/-- The rendering of an integral Python float is its integer digits
followed by ".0". -/
theorem pyFloatRepr_natCast (v : ℕ) : pyFloatRepr ((v : ℚ)) = toString v ++ ".0" := by
  have h0 : ¬((v : ℤ) < 0) := by omega
  simp only [pyFloatRepr, Rat.num_natCast, Rat.den_natCast, if_neg h0]
  simp [Int.natAbs_ofNat, Nat.mod_one, fracDigitsAux_zero, String.append_assoc]

/-- Closed form of a capacity log record whose bandwidth-derived value is
the integer `v`. -/
theorem capacity_line_natCast (t v : ℕ) (bw : ℚ) (h : bw * 1000000 = (v : ℚ)) :
    capacity_log_line t bw = toString t ++ ", " ++ (toString v ++ ".0") ++ "\n" := by
  unfold capacity_log_line
  rw [h, pyFloatRepr_natCast]

/-- Timers armed after the first all capture `is_first = False`. -/
theorem arm_timers_false_flag (l : List ScheduleEntry) :
    ∀ ts ∈ arm_timers false l, ts.is_first = false := by
  induction l with
  | nil => intro ts h; cases h
  | cons c rest ih =>
    intro ts h
    rcases List.mem_cons.mp h with h1 | h2
    · rw [h1]
    · exact ih ts h2

/-! ## Claim C3 -/

/-- C3: for every nonempty schedule, the very first shaping call issued
for the link uses add semantics, and every shaping call of every
subsequent entry (both interfaces, both the tbf and the netem qdisc)
uses change semantics. -/
theorem first_call_add_rest_change (i1 i2 : String) (cfg : List ScheduleEntry)
    (h : cfg ≠ []) :
    (schedule_calls i1 i2 cfg).head?.map ShapeCall.mode = some TcMode.add ∧
      ∀ (j : ℕ) (hj : j < (arm_timers true cfg).length), 1 ≤ j →
        ∀ c ∈ update_link_calls i1 i2 ((arm_timers true cfg).get ⟨j, hj⟩).is_first,
          c.mode = TcMode.change := by
  cases cfg with
  | nil => exact absurd rfl h
  | cons c0 rest =>
    refine ⟨?_, ?_⟩
    · simp [schedule_calls, arm_timers, update_link_calls]
    · intro j hj h1 c hc
      obtain ⟨k, rfl⟩ : ∃ k, j = k + 1 := ⟨j - 1, by omega⟩
      have hj2 : k < (arm_timers false rest).length := by
        have he : arm_timers true (c0 :: rest) =
            ⟨c0.start_time, c0.ratio * reference, true⟩ :: arm_timers false rest := rfl
        rw [he] at hj
        simpa using hj
      have hget : (arm_timers true (c0 :: rest)).get ⟨k + 1, hj⟩ =
          (arm_timers false rest).get ⟨k, hj2⟩ := rfl
      have hmem : (arm_timers false rest).get ⟨k, hj2⟩ ∈ arm_timers false rest :=
        List.get_mem _ _ _
      have hf := arm_timers_false_flag rest _ hmem
      rw [hget, hf] at hc
      revert hc
      simp [update_link_calls]
      rintro (rfl | rfl | rfl | rfl) <;> rfl

/-- C3 witness: the property at the concrete source schedule and the
concrete bottleneck interfaces of the dumbbell. -/
theorem first_call_add_rest_change_w :
    tc_config ≠ [] ∧
      ((schedule_calls "ls1-eth2" "rs1-eth2" tc_config).head?.map ShapeCall.mode =
          some TcMode.add ∧
        ∀ (j : ℕ) (hj : j < (arm_timers true tc_config).length), 1 ≤ j →
          ∀ c ∈ update_link_calls "ls1-eth2" "rs1-eth2"
              ((arm_timers true tc_config).get ⟨j, hj⟩).is_first,
            c.mode = TcMode.change) :=
  ⟨by simp [tc_config],
    first_call_add_rest_change "ls1-eth2" "rs1-eth2" tc_config (by simp [tc_config])⟩

/-! ## Claim C4 -/

/-- C4 counterexample: the record written for the first schedule entry
(ratio 1.0) at timestamp 0 is "0, 1000000.0" followed by a newline; its
capacity field is rendered in float notation with a trailing ".0", so the
line is not of the claimed integer-integer form. -/
theorem capacity_record_not_integer_form :
    capacity_log_line 0 (1 * reference) = "0, 1000000.0\n" ∧
      claimed_record_form (capacity_log_line 0 (1 * reference)) = false := by
  have h : capacity_log_line 0 (1 * reference) = "0, 1000000.0\n" := by
    rw [capacity_line_natCast 0 1000000 _ (by norm_num [reference])]
    decide
  exact ⟨h, by rw [h]; decide⟩

/-- C4 (amended): every record is one newline-terminated line of the form
timestamp, comma-space, then the integer `ratio * reference * 10^6`
rendered in Python float notation with a trailing ".0" (so the capacity
field is numerically the capacity in bits per second but is not an
integer numeral). -/
theorem capacity_record_decimal_shape (t : ℕ) (e : ScheduleEntry)
    (he : e ∈ tc_config) :
    ∃ v : ℕ, ((v : ℚ)) = e.ratio * reference * 1000000 ∧
      capacity_log_line t (e.ratio * reference) =
        toString t ++ ", " ++ (toString v ++ ".0") ++ "\n" := by
  fin_cases he
  · exact ⟨1000000, by norm_num [reference],
      capacity_line_natCast _ _ _ (by norm_num [reference])⟩
  · exact ⟨2500000, by norm_num [reference],
      capacity_line_natCast _ _ _ (by norm_num [reference])⟩
  · exact ⟨600000, by norm_num [reference],
      capacity_line_natCast _ _ _ (by norm_num [reference])⟩
  · exact ⟨1000000, by norm_num [reference],
      capacity_line_natCast _ _ _ (by norm_num [reference])⟩
  · exact ⟨1000000, by norm_num [reference],
      capacity_line_natCast _ _ _ (by norm_num [reference])⟩

/-- C4 amended witness: the second schedule entry at timestamp 7. -/
theorem capacity_record_decimal_shape_w :
    (⟨40, 5/2⟩ : ScheduleEntry) ∈ tc_config ∧
      ∃ v : ℕ, ((v : ℚ)) = (⟨40, 5/2⟩ : ScheduleEntry).ratio * reference * 1000000 ∧
        capacity_log_line 7 ((⟨40, 5/2⟩ : ScheduleEntry).ratio * reference) =
          toString 7 ++ ", " ++ (toString v ++ ".0") ++ "\n" :=
  ⟨by simp [tc_config], capacity_record_decimal_shape 7 _ (by simp [tc_config])⟩

/-! ## Claim C8 -/

/-- C8 counterexample: the keys of the persisted config object are not the
claimed list - the sender and receiver executables are stored under the
attribute names sender_binary and receiver_binary, not sender and
receiver. -/
theorem config_keys_counterexample :
    config_keys implDemo 0 =
        ["basetime", "name", "description", "sender_binary", "receiver_binary",
          "out_dir"] ∧
      config_keys implDemo 0 ≠
        ["basetime", "name", "description", "sender", "receiver", "out_dir"] :=
  ⟨rfl, by decide⟩

/-- C8 (amended): for every implementation and start time, config.json
holds exactly the keys basetime, name, description, sender_binary,
receiver_binary, out_dir, in this order, and basetime is the start time
in integer milliseconds (truncated as Python int() does). -/
theorem config_keys_spec (impl : Implementation) (start : ℚ) :
    config_keys impl start =
        ["basetime", "name", "description", "sender_binary", "receiver_binary",
          "out_dir"] ∧
      (dump_config_json impl start).head? =
        some ("basetime", JVal.int (pyTrunc (start * 1000))) :=
  ⟨rfl, rfl⟩

/-! ## Run trace helper lemmas -/

/-- When provisioning, setup and both launches succeed, the run trace is
the full try-block trace followed by the finally-block trace. -/
theorem run_eq_of_launchOk (impl : Implementation) (env : Env) (h : launchOk env) :
    run impl env =
      ((finallyBlock env true [env.proc1ExitsInGrace, env.proc2ExitsInGrace]
          env.monitorExn.isNone).1,
        [Action.mkdirOut, Action.dumpConfig, Action.startTc,
          Action.launch (impl.receive_cmd "10.0.0.1" "4242") true true,
          Action.launch (impl.send_cmd "10.0.0.1" "4242") true true,
          Action.monitor] ++
          (finallyBlock env true [env.proc1ExitsInGrace, env.proc2ExitsInGrace]
            env.monitorExn.isNone).2) := by
  obtain ⟨h1, h2, h3, h4, h5, h6⟩ := h
  simp [run, tryBody, List.take, h1, h2, h3, h4, h5, h6]

/-- The finally block when neither `net.stop()` nor `cleanup()` raises. -/
theorem finallyBlock_ok (env : Env) (gs : List Bool) (ok : Bool)
    (hS : env.netStopRaises = false) (hC : env.cleanupRaises = false) :
    finallyBlock env true gs ok =
      (Outcome.returns ok,
        Action.stopping :: (termKillTrace 0 gs ++
          [Action.netStop, Action.cancelTimers, Action.cleanup])) := by
  simp [finallyBlock, hS, hC]

theorem termKillTrace_no_launch (i : ℕ) (gs : List Bool) :
    (termKillTrace i gs).filter isLaunch = [] := by
  induction gs generalizing i with
  | nil => rfl
  | cons g rest ih => cases g <;> simp [termKillTrace, isLaunch, ih]

theorem finallyBlock_no_launch (env : Env) (pb : Bool) (gs : List Bool)
    (ok : Bool) : (finallyBlock env pb gs ok).2.filter isLaunch = [] := by
  cases pb <;> cases hS : env.netStopRaises <;> cases hC : env.cleanupRaises <;>
    simp [finallyBlock, isLaunch, termKillTrace_no_launch, hS, hC]

/-! ## Claim C1 -/

/-- C1 counterexample: an exception raised during topology provisioning
(lines 144-148, which execute before the try block) propagates out of
run() - the claimed boolean-on-every-exit-path does not hold. -/
theorem run_raises_on_provisioning_error :
    (run implDemo envProvFail).1 = Outcome.raises Exn.pyError := rfl

/-- C1 (amended): run() returns a boolean whenever provisioning, the
pre-launch setup steps (mkdir, dump_config, start_traffic_control) and
the teardown steps do not raise; exceptions from the popen launches and
from the monitoring loop (including an external interrupt) are caught by
the except clause and converted into a False success flag. -/
theorem run_returns_bool (impl : Implementation) (env : Env)
    (h1 : env.netCreateRaises = false) (h2 : env.mkdirRaises = false)
    (h3 : env.dumpConfigRaises = false) (h4 : env.startTcRaises = false)
    (h5 : env.netStopRaises = false) (h6 : env.cleanupRaises = false) :
    ∃ b : Bool, (run impl env).1 = Outcome.returns b := by
  refine ⟨(tryBody impl env).ok, ?_⟩
  by_cases hp1 : env.popen1Raises <;> by_cases hp2 : env.popen2Raises <;>
    simp [run, tryBody, finallyBlock, h1, h2, h3, h4, h5, h6, hp1, hp2]

/-- C1 amended witness: a run interrupted in the monitoring loop with one
hanging child still returns a boolean. -/
theorem run_returns_bool_w :
    ∃ b : Bool, (run implDemo envInterruptHang).1 = Outcome.returns b :=
  run_returns_bool implDemo envInterruptHang rfl rfl rfl rfl rfl rfl

/-! ## Claim C2 -/

/-- C2 counterexample: when `net.stop()` raises during teardown, the
cancel-timers and cleanup steps are never attempted and the error
propagates - later teardown steps are not attempted after a failing
one, contradicting the claim that each step is attempted even if a prior
step reports an error. -/
theorem teardown_not_total :
    Action.netStop ∈ (run implDemo envStopFail).2 ∧
      Action.cancelTimers ∉ (run implDemo envStopFail).2 ∧
      Action.cleanup ∉ (run implDemo envStopFail).2 ∧
      (run implDemo envStopFail).1 = Outcome.raises Exn.pyError := by
  decide

/-- C2 (amended): on every exit from the monitoring loop, teardown
performs terminate/kill of the launched processes, then stops the
topology, then cancels pending timers, then releases emulation-wide
resources, in this order - provided no teardown step itself raises (a
raising step aborts the remaining steps, as the counterexample shows). -/
theorem teardown_order (impl : Implementation) (env : Env) (h : launchOk env)
    (hS : env.netStopRaises = false) (hC : env.cleanupRaises = false) :
    ∃ pre, (run impl env).2 =
      pre ++ (Action.stopping ::
        (termKillTrace 0 [env.proc1ExitsInGrace, env.proc2ExitsInGrace] ++
          [Action.netStop, Action.cancelTimers, Action.cleanup])) := by
  refine ⟨[Action.mkdirOut, Action.dumpConfig, Action.startTc,
    Action.launch (impl.receive_cmd "10.0.0.1" "4242") true true,
    Action.launch (impl.send_cmd "10.0.0.1" "4242") true true,
    Action.monitor], ?_⟩
  rw [run_eq_of_launchOk impl env h]
  rw [finallyBlock_ok env _ _ hS hC]

/-- C2 amended witness: the teardown suffix of a fully successful run. -/
theorem teardown_order_w :
    ∃ pre, (run implDemo envOk).2 =
      pre ++ (Action.stopping :: (termKillTrace 0 [true, true] ++
        [Action.netStop, Action.cancelTimers, Action.cleanup])) :=
  teardown_order implDemo envOk (by decide) rfl rfl

/-! ## Claim C6 -/

/-- C6: on monitoring-loop exit for any reason (deadline, process exit or
an exception, including an external interrupt), each launched process is
sent terminate and awaited for the 3-second grace period, and it is
killed exactly when it does not exit within that window; the treatment
of each process is independent of the behaviour of the other and of
later teardown failures. -/
theorem grace_then_kill (impl : Implementation) (env : Env) (h : launchOk env) :
    Action.terminate 0 ∈ (run impl env).2 ∧
      Action.waitGrace 0 grace_period ∈ (run impl env).2 ∧
      Action.terminate 1 ∈ (run impl env).2 ∧
      Action.waitGrace 1 grace_period ∈ (run impl env).2 ∧
      (Action.kill 0 ∈ (run impl env).2 ↔ env.proc1ExitsInGrace = false) ∧
      (Action.kill 1 ∈ (run impl env).2 ↔ env.proc2ExitsInGrace = false) := by
  rw [run_eq_of_launchOk impl env h]
  cases hS : env.netStopRaises <;> cases hC : env.cleanupRaises <;>
    cases hg1 : env.proc1ExitsInGrace <;> cases hg2 : env.proc2ExitsInGrace <;>
      simp [finallyBlock, termKillTrace, hS, hC]

/-- C6 witness: an interrupted run in which the first process ignores the
termination signal (and is killed) while the second exits in time. -/
theorem grace_then_kill_w :
    Action.terminate 0 ∈ (run implDemo envInterruptHang).2 ∧
      Action.waitGrace 0 grace_period ∈ (run implDemo envInterruptHang).2 ∧
      Action.terminate 1 ∈ (run implDemo envInterruptHang).2 ∧
      Action.waitGrace 1 grace_period ∈ (run implDemo envInterruptHang).2 ∧
      (Action.kill 0 ∈ (run implDemo envInterruptHang).2 ↔
        envInterruptHang.proc1ExitsInGrace = false) ∧
      (Action.kill 1 ∈ (run implDemo envInterruptHang).2 ↔
        envInterruptHang.proc2ExitsInGrace = false) :=
  grace_then_kill implDemo envInterruptHang (by decide)

/-! ## Claim C9 -/

/-- C9: every run that reaches the monitoring loop has launched exactly
two child processes, the receiver-role command first and the sender-role
command second (note the swapped local variable names in lines 161-169:
h1 runs the receiver binary), each with stdout and stderr captured. -/
theorem two_launches_receiver_then_sender (impl : Implementation) (env : Env)
    (h : launchOk env) :
    (run impl env).2.filter isLaunch =
      [Action.launch [impl.receiver_binary, "-mode", "receiver"] true true,
        Action.launch [impl.sender_binary, "-mode", "sender"] true true] := by
  rw [run_eq_of_launchOk impl env h]
  simp [List.filter_append, finallyBlock_no_launch, isLaunch,
    Implementation.receive_cmd, Implementation.send_cmd]

/-- C9 witness: the launches of a fully successful demo run. -/
theorem two_launches_receiver_then_sender_w :
    (run implDemo envOk).2.filter isLaunch =
      [Action.launch ["./receiver", "-mode", "receiver"] true true,
        Action.launch ["./sender", "-mode", "sender"] true true] :=
  two_launches_receiver_then_sender implDemo envOk (by decide)

/-! ## Claim C7 -/

/-- C7 counterexample: in a fully successful run the stopping step is at
position 6 while cancelTimers executes only at position 12, so at
position 11 (after process termination and net.stop) teardown has long
begun and an armed timer can still fire. -/
theorem event_can_fire_after_teardown_begun :
    stoppingIdx (run implDemo envOk).2 < 11 ∧
      timer_can_fire (run implDemo envOk).2 11 := by
  decide

/-- C7 (amended): cancellation is the third teardown step - it occurs
strictly after teardown has begun and strictly after net.stop - so an
armed timer may still fire after teardown has begun; but once the
cancelTimers step has executed, a cancelled-but-not-yet-fired event
never runs. -/
theorem cancelled_event_never_fires (impl : Implementation) (env : Env)
    (h : launchOk env) (hS : env.netStopRaises = false)
    (hC : env.cleanupRaises = false) :
    stoppingIdx (run impl env).2 < cancelIdx (run impl env).2 ∧
      idxOf Action.netStop (run impl env).2 < cancelIdx (run impl env).2 ∧
      ∀ p, cancelIdx (run impl env).2 < p → ¬ timer_can_fire (run impl env).2 p := by
  have htr : (run impl env).2 =
      [Action.mkdirOut, Action.dumpConfig, Action.startTc,
        Action.launch (impl.receive_cmd "10.0.0.1" "4242") true true,
        Action.launch (impl.send_cmd "10.0.0.1" "4242") true true,
        Action.monitor] ++
        (Action.stopping ::
          (termKillTrace 0 [env.proc1ExitsInGrace, env.proc2ExitsInGrace] ++
            [Action.netStop, Action.cancelTimers, Action.cleanup])) := by
    rw [run_eq_of_launchOk impl env h]
    rw [finallyBlock_ok env _ _ hS hC]
  refine ⟨?_, ?_, fun p hp hf => by unfold timer_can_fire at hf; omega⟩ <;>
    rw [htr] <;>
    cases hg1 : env.proc1ExitsInGrace <;> cases hg2 : env.proc2ExitsInGrace <;>
      simp [stoppingIdx, cancelIdx, idxOf, termKillTrace, grace_period]

/-- C7 amended witness: the cancellation position facts for an
interrupted run with a hanging first process. -/
theorem cancelled_event_never_fires_w :
    stoppingIdx (run implDemo envInterruptHang).2 <
        cancelIdx (run implDemo envInterruptHang).2 ∧
      idxOf Action.netStop (run implDemo envInterruptHang).2 <
        cancelIdx (run implDemo envInterruptHang).2 ∧
      ∀ p, cancelIdx (run implDemo envInterruptHang).2 < p →
        ¬ timer_can_fire (run implDemo envInterruptHang).2 p :=
  cancelled_event_never_fires implDemo envInterruptHang (by decide) rfl rfl

/-! ## Claim C5 -/

/-- If every observation time up to the deadline is followed by another
observation at most one poll interval later, the loop body breaks at the
first observation time reaching the deadline, which is at most one poll
interval past it. -/
theorem monitorExit_bound (endT : ℕ) :
    ∀ ts : List ℕ,
      (∀ t0, ts.head? = some t0 → t0 ≤ endT + poll_interval_ms) →
      gaps_le poll_interval_ms ts = true →
      (∃ t ∈ ts, endT ≤ t) →
      ∃ texit, monitorExitTime endT ts = some texit ∧
        endT ≤ texit ∧ texit ≤ endT + poll_interval_ms := by
  intro ts
  induction ts with
  | nil =>
    intro _ _ hlive
    rcases hlive with ⟨t, ht, _⟩
    cases ht
  | cons a l ih =>
    intro hhead hgap hlive
    by_cases ha : endT ≤ a
    · exact ⟨a, by simp [monitorExitTime, ha], ha, hhead a rfl⟩
    · have hmon : monitorExitTime endT (a :: l) = monitorExitTime endT l := by
        simp [monitorExitTime, ha]
      rw [hmon]
      have hlive2 : ∃ t ∈ l, endT ≤ t := by
        rcases hlive with ⟨t, ht, hle⟩
        rcases List.mem_cons.mp ht with rfl | h2
        · exact absurd hle ha
        · exact ⟨t, h2, hle⟩
      cases l with
      | nil =>
        rcases hlive2 with ⟨t, ht, _⟩
        cases ht
      | cons b l2 =>
        have hg := hgap
        simp only [gaps_le, Bool.and_eq_true, decide_eq_true_eq] at hg
        have hhead2 : ∀ t0, (b :: l2).head? = some t0 →
            t0 ≤ endT + poll_interval_ms := by
          intro t0 h0
          simp only [List.head?_cons, Option.some.injEq] at h0
          omega
        exact ih hhead2 hg.2 hlive2

/-- C5: with `pmonitor` yielding at least once per poll interval while a
child is alive (first observation within one interval of the start,
consecutive observations at most one interval apart, observations
continuing past the deadline because neither child exits), the loop
exits at an observation time that is at least the deadline and at most
one poll interval after it. -/
theorem monitor_deadline_enforced (startT secs : ℕ) (ts : List ℕ)
    (hfirst : ∀ t0, ts.head? = some t0 → t0 ≤ startT + poll_interval_ms)
    (hgap : gaps_le poll_interval_ms ts = true)
    (hlive : ∃ t ∈ ts, startT + secs ≤ t) :
    ∃ texit, monitorExitTime (startT + secs) ts = some texit ∧
      startT + secs ≤ texit ∧ texit ≤ (startT + secs) + poll_interval_ms :=
  monitorExit_bound (startT + secs) ts
    (fun t0 h0 => le_trans (hfirst t0 h0) (by omega)) hgap hlive

/-- C5 witness: a concrete poll timetable with deadline 2000 ms. -/
theorem monitor_deadline_enforced_w :
    gaps_le poll_interval_ms [900, 1800, 2700] = true ∧
      (∃ t ∈ ([900, 1800, 2700] : List ℕ), 0 + 2000 ≤ t) ∧
      ∃ texit, monitorExitTime (0 + 2000) [900, 1800, 2700] = some texit ∧
        0 + 2000 ≤ texit ∧ texit ≤ (0 + 2000) + poll_interval_ms :=
  ⟨by decide, by decide,
    monitor_deadline_enforced 0 2000 [900, 1800, 2700]
      (fun t0 h0 => by
        simp only [List.head?_cons, Option.some.injEq] at h0
        simp only [poll_interval_ms]
        omega)
      (by decide) (by decide)⟩

/-! ## Claim C10 -/

/-- Folding file operations that only ever append to a path extends that
the previous content of that path. -/
theorem foldl_applyOp_append (p : String) :
    ∀ (ops : List FileOp) (fs0 : String → List String),
      (∀ op ∈ ops, op.path = p → op.mode = FMode.append) →
      ∃ extra, (ops.foldl applyOp fs0) p = fs0 p ++ extra := by
  intro ops
  induction ops with
  | nil =>
    intro fs0 _
    exact ⟨[], (List.append_nil _).symm⟩
  | cons op rest ih =>
    intro fs0 hmode
    rcases ih (applyOp fs0 op)
        (fun o ho hp => hmode o (List.mem_cons_of_mem _ ho) hp) with ⟨extra, hex⟩
    by_cases hp : p = op.path
    · have hm : op.mode = FMode.append := hmode op (List.mem_cons_self _ _) hp.symm
      refine ⟨op.lines ++ extra, ?_⟩
      rw [List.foldl_cons, hex]
      simp [applyOp, hp, hm]
    · refine ⟨extra, ?_⟩
      rw [List.foldl_cons, hex]
      simp [applyOp, hp]

/-- C10: a run only ever opens capacity.log in append mode (config.json
is the only file opened for truncating write), so whatever capacity.log
contained before the run is preserved as a prefix of its content after
the run, for every set of fired timers. -/
theorem capacity_log_append_only (fired : List (ℕ × ℚ))
    (fs0 : String → List String) :
    (∀ op ∈ run_file_ops fired, op.path = "capacity.log" →
        op.mode = FMode.append) ∧
      ∃ extra, run_fs fired fs0 "capacity.log" = fs0 "capacity.log" ++ extra := by
  have hmode : ∀ op ∈ run_file_ops fired, op.path = "capacity.log" →
      op.mode = FMode.append := by
    intro op hop hpath
    rcases List.mem_cons.mp hop with rfl | h2
    · exact absurd hpath (by decide)
    · rcases List.mem_map.mp h2 with ⟨q, _, rfl⟩
      rfl
  exact ⟨hmode, foldl_applyOp_append "capacity.log" (run_file_ops fired) fs0 hmode⟩

/-- C10 witness: one fired timer appending to a log that already holds a
record. -/
theorem capacity_log_append_only_w :
    (∀ op ∈ run_file_ops [(5, 1)], op.path = "capacity.log" →
        op.mode = FMode.append) ∧
      ∃ extra, run_fs [(5, 1)] (fun _ => ["0, 1000000.0"]) "capacity.log" =
        (fun _ => ["0, 1000000.0"] : String → List String) "capacity.log" ++ extra :=
  capacity_log_append_only [(5, 1)] (fun _ => ["0, 1000000.0"])

end Bwe
